import Mathlib

/-!
Verification development for the `chip8_colab` interpreter
(`src/interpreter.rs`).

Machine words are embedded as `Nat` with explicit `% 2^w` where the source
wraps; fixed-size Rust arrays are embedded as `List`s of the corresponding
length; Rust operations that panic (array indexing out of bounds, the
unconditional `unimplemented!()` at the end of `execute_current_instruction`)
are embedded as explicit failure values so theorems can talk about them.

The repository's `nibbles` and `instructions` modules are declared by
`interpreter.rs` (`mod instructions;` and the `use crate::nibbles::...`
import) but their files are not part of the sources available here; the
definitions below that stand in for them are modelled from the spec and say
so in their doc comments.  Everything else is translated directly from
`src/interpreter.rs`.
-/

/-- Machine state, translated field-for-field from `struct Chip8`
(`src/interpreter.rs` lines 5-49).  `memory : [u8; 4096]`,
`program_counter : u16`, `address_register : u16`,
`variable_register : [u8; 16]`, `call_stack : [u16; 16]`,
`call_stack_index : usize`, `delay_timer : u8`, `sound_timer : u8`,
`display : [[bool; 64]; 32]`, `keypad : [[bool; 4]; 4]`. -/
structure Chip8 where
  memory : List Nat
  program_counter : Nat
  address_register : Nat
  variable_register : List Nat
  call_stack : List Nat
  call_stack_index : Nat
  delay_timer : Nat
  sound_timer : Nat
  display : List (List Bool)
  keypad : List (List Bool)
deriving DecidableEq

/-- `Chip8::PROGRAM_MEMORY_OFFSET` (`src/interpreter.rs` line 54): the
constant is written `200` in the source, a decimal literal. -/
def Chip8.PROGRAM_MEMORY_OFFSET : Nat := 200

/-- `Chip8::new` (`src/interpreter.rs` lines 56-69): every field zeroed
except the program counter, which starts at `PROGRAM_MEMORY_OFFSET`. -/
def Chip8.new : Chip8 :=
  { memory := List.replicate 4096 0
    program_counter := Chip8.PROGRAM_MEMORY_OFFSET
    address_register := 0
    variable_register := List.replicate 16 0
    call_stack := List.replicate 16 0
    call_stack_index := 0
    delay_timer := 0
    sound_timer := 0
    display := List.replicate 32 (List.replicate 64 false)
    keypad := List.replicate 4 (List.replicate 4 false) }

/-- Modelled from the spec: `crate::nibbles::get_first_nibble` is imported by
`interpreter.rs` but the `nibbles` module file is missing from the sources.
Per §4.1 the fetch splits each byte into a high nibble and a low nibble;
this is the high (first) nibble of a byte. -/
def get_first_nibble (byte : Nat) : Nat := byte / 16 % 16

/-- Modelled from the spec: `crate::nibbles::get_second_nibble` (module file
missing).  The low (second) nibble of a byte, per §4.1. -/
def get_second_nibble (byte : Nat) : Nat := byte % 16

/-- Modelled from the spec: `crate::nibbles::combine_two_nibbles` (module
file missing).  Per §4.1, recombines two adjacent 4-bit fields into an
8-bit value. -/
def combine_two_nibbles (a b : Nat) : Nat := a * 16 + b

/-- Modelled from the spec: `crate::nibbles::combine_three_nibbles` (module
file missing).  Per §4.1, recombines the last three 4-bit fields into a
12-bit address. -/
def combine_three_nibbles (a b c : Nat) : Nat := a * 256 + b * 16 + c

/-- `Chip8::get_current_instruction` (`src/interpreter.rs` lines 75-87).
The source indexes `self.memory[program_counter]` and
`self.memory[program_counter + 1]` with no bounds checking (the doc comment
on the source function carries a `TODO: Add bounds checking`); a Rust array
index out of bounds panics, embedded here as `none`.  The arrays have
static length 4096, so the accesses are in bounds exactly when
`program_counter + 1 < 4096`. -/
def Chip8.get_current_instruction (s : Chip8) : Option (Nat × Nat × Nat × Nat) :=
  if s.program_counter + 1 < 4096 then
    let most_significant_byte := s.memory.getD s.program_counter 0
    let least_significant_byte := s.memory.getD (s.program_counter + 1) 0
    some (get_first_nibble most_significant_byte,
          get_second_nibble most_significant_byte,
          get_first_nibble least_significant_byte,
          get_second_nibble least_significant_byte)
  else none

/-- The handler selected by the `match nibbles` dispatch in
`execute_current_instruction` (`src/interpreter.rs` lines 98-135), together
with the derived arguments the dispatcher passes to it.  `legacy_noop` is
the `[0x0, _, _, _] => {}` arm (line 99) and `unknown_noop` is the final
`_ => {}` arm (line 134). -/
inductive Handler where
  | legacy_noop
  | clear_screen
  | return_subroutine
  | jump (address : Nat)
  | call_subroutine (address : Nat)
  | skip_if_equal_value (x value : Nat)
  | skip_if_equal (x y : Nat)
  | assign_value (x value : Nat)
  | add_assign_value (x value : Nat)
  | assign (x y : Nat)
  | bitwise_or (x y : Nat)
  | bitwise_and (x y : Nat)
  | bitwise_xor (x y : Nat)
  | add_assign (x y : Nat)
  | sub_assign (x y : Nat)
  | right_shift_assign (x y : Nat)
  | sub_assign_swapped (x y : Nat)
  | left_shift_assign (x y : Nat)
  | skip_if_not_equal (x y : Nat)
  | set_address_register (address : Nat)
  | jump_offset (address : Nat)
  | random_number_assign (x value : Nat)
  | draw_sprite (x y height : Nat)
  | skip_on_key_pressed (x : Nat)
  | skip_on_key_not_pressed (x : Nat)
  | store_delay_timer (x : Nat)
  | wait_for_key_press (x : Nat)
  | set_delay_timer (x : Nat)
  | set_sound_timer (x : Nat)
  | address_register_add_assign (x : Nat)
  | set_address_register_to_character_address (x : Nat)
  | store_binary_coded_decimal_at_address_register (x : Nat)
  | store_variable_registers (x : Nat)
  | load_variable_registers (x : Nat)
  | unknown_noop
deriving DecidableEq

/-- The dispatch `match` of `execute_current_instruction`
(`src/interpreter.rs` lines 98-135), translated arm by arm in source order
with Rust's first-match-wins semantics made explicit as a chain of guards.
The derived values (`address`, `value`, `x_register_index`,
`y_register_index`, `sprite_height`, source lines 92-96) appear as the
arguments recorded in the selected `Handler`.  Note the source places the
wildcard arm `[0x0, _, _, _] => {}` (line 99) before the exact arms
`[0x0, 0x0, 0xE, 0x0]` (line 100) and `[0x0, 0x0, 0xE, 0xE]` (line 101),
so those two arms are unreachable, exactly as in the source. -/
def selectedHandler (n0 n1 n2 n3 : Nat) : Handler :=
  if n0 = 0x0 then Handler.legacy_noop
  else if n0 = 0x0 ∧ n1 = 0x0 ∧ n2 = 0xE ∧ n3 = 0x0 then Handler.clear_screen
  else if n0 = 0x0 ∧ n1 = 0x0 ∧ n2 = 0xE ∧ n3 = 0xE then Handler.return_subroutine
  else if n0 = 0x1 then Handler.jump (combine_three_nibbles n1 n2 n3)
  else if n0 = 0x2 then Handler.call_subroutine (combine_three_nibbles n1 n2 n3)
  else if n0 = 0x3 then Handler.skip_if_equal_value n1 (combine_two_nibbles n2 n3)
  else if n0 = 0x4 then Handler.skip_if_equal_value n1 (combine_two_nibbles n2 n3)
  else if n0 = 0x5 ∧ n3 = 0x0 then Handler.skip_if_equal n1 n2
  else if n0 = 0x6 then Handler.assign_value n1 (combine_two_nibbles n2 n3)
  else if n0 = 0x7 then Handler.add_assign_value n1 (combine_two_nibbles n2 n3)
  else if n0 = 0x8 ∧ n3 = 0x0 then Handler.assign n1 n2
  else if n0 = 0x8 ∧ n3 = 0x1 then Handler.bitwise_or n1 n2
  else if n0 = 0x8 ∧ n3 = 0x2 then Handler.bitwise_and n1 n2
  else if n0 = 0x8 ∧ n3 = 0x3 then Handler.bitwise_xor n1 n2
  else if n0 = 0x8 ∧ n3 = 0x4 then Handler.add_assign n1 n2
  else if n0 = 0x8 ∧ n3 = 0x5 then Handler.sub_assign n1 n2
  else if n0 = 0x8 ∧ n3 = 0x6 then Handler.right_shift_assign n1 n2
  else if n0 = 0x8 ∧ n3 = 0x7 then Handler.sub_assign_swapped n1 n2
  else if n0 = 0x8 ∧ n3 = 0xE then Handler.left_shift_assign n1 n2
  else if n0 = 0x9 ∧ n3 = 0x0 then Handler.skip_if_not_equal n1 n2
  else if n0 = 0xA then Handler.set_address_register (combine_three_nibbles n1 n2 n3)
  else if n0 = 0xB then Handler.jump_offset (combine_three_nibbles n1 n2 n3)
  else if n0 = 0xC then Handler.random_number_assign n1 (combine_two_nibbles n2 n3)
  else if n0 = 0xD then Handler.draw_sprite n1 n2 n3
  else if n0 = 0xE ∧ n2 = 0x9 ∧ n3 = 0xE then Handler.skip_on_key_pressed n1
  else if n0 = 0xE ∧ n2 = 0xA ∧ n3 = 0x1 then Handler.skip_on_key_not_pressed n1
  else if n0 = 0xF ∧ n2 = 0x0 ∧ n3 = 0x7 then Handler.store_delay_timer n1
  else if n0 = 0xF ∧ n2 = 0x0 ∧ n3 = 0xA then Handler.wait_for_key_press n1
  else if n0 = 0xF ∧ n2 = 0x1 ∧ n3 = 0x5 then Handler.set_delay_timer n1
  else if n0 = 0xF ∧ n2 = 0x1 ∧ n3 = 0x8 then Handler.set_sound_timer n1
  else if n0 = 0xF ∧ n2 = 0x1 ∧ n3 = 0xE then Handler.address_register_add_assign n1
  else if n0 = 0xF ∧ n2 = 0x2 ∧ n3 = 0x9 then Handler.set_address_register_to_character_address n1
  else if n0 = 0xF ∧ n2 = 0x3 ∧ n3 = 0x3 then Handler.store_binary_coded_decimal_at_address_register n1
  else if n0 = 0xF ∧ n2 = 0x5 ∧ n3 = 0x5 then Handler.store_variable_registers n1
  else if n0 = 0xF ∧ n2 = 0x6 ∧ n3 = 0x5 then Handler.load_variable_registers n1
  else Handler.unknown_noop

/-- Error taxonomy of the spec (§7): stack overflow, stack underflow and
out-of-bounds memory access, the three explicit error conditions a step may
signal. -/
inductive Chip8Error where
  | stackOverflow
  | stackUnderflow
  | outOfBoundsAccess
deriving DecidableEq

/-- Modelled from the spec: `Chip8::clear_screen` (the `instructions` module
file is missing from the sources).  §4.3: sets every display cell to off. -/
def Chip8.clear_screen (s : Chip8) : Chip8 :=
  { s with display := List.replicate 32 (List.replicate 64 false) }

/-- Modelled from the spec: `Chip8::return_subroutine` (module file
missing).  §4.3: decrements the stack index and sets the program counter to
the popped address; underflow (index already 0) is an error. -/
def Chip8.return_subroutine (s : Chip8) : Except Chip8Error Chip8 :=
  if s.call_stack_index = 0 then Except.error Chip8Error.stackUnderflow
  else Except.ok { s with
    call_stack_index := s.call_stack_index - 1
    program_counter := s.call_stack.getD (s.call_stack_index - 1) 0 }

/-- Modelled from the spec: `Chip8::jump` (module file missing).  §4.3:
sets the program counter to NNN; no increment follows. -/
def Chip8.jump (s : Chip8) (address : Nat) : Chip8 :=
  { s with program_counter := address }

/-- Modelled from the spec: `Chip8::call_subroutine` (module file missing).
§4.3: pushes the current program counter, increments the stack index, sets
the program counter to NNN; overflow (index already at capacity 16) is an
error. -/
def Chip8.call_subroutine (s : Chip8) (address : Nat) : Except Chip8Error Chip8 :=
  if 16 ≤ s.call_stack_index then Except.error Chip8Error.stackOverflow
  else Except.ok { s with
    call_stack := s.call_stack.set s.call_stack_index s.program_counter
    call_stack_index := s.call_stack_index + 1
    program_counter := address }

/-- Modelled from the spec: `Chip8::skip_if_equal_value` (module file
missing).  §4.3: if register[x] equals NN, advance the program counter by an
extra two bytes. -/
def Chip8.skip_if_equal_value (s : Chip8) (x value : Nat) : Chip8 :=
  if s.variable_register.getD x 0 = value then
    { s with program_counter := s.program_counter + 2 }
  else s

/-- Modelled from the spec: `Chip8::skip_if_not_equal_value` (module file
missing; the dispatcher in `interpreter.rs` never calls it).  §4.3: if
register[x] does not equal NN, advance the program counter by an extra two
bytes. -/
def Chip8.skip_if_not_equal_value (s : Chip8) (x value : Nat) : Chip8 :=
  if s.variable_register.getD x 0 = value then s
  else { s with program_counter := s.program_counter + 2 }

/-- Modelled from the spec: `Chip8::skip_if_equal` (module file missing).
§4.3: same skip semantics comparing register[x] to register[y]. -/
def Chip8.skip_if_equal (s : Chip8) (x y : Nat) : Chip8 :=
  if s.variable_register.getD x 0 = s.variable_register.getD y 0 then
    { s with program_counter := s.program_counter + 2 }
  else s

/-- Modelled from the spec: `Chip8::skip_if_not_equal` (module file
missing).  §4.3: skip when register[x] differs from register[y]. -/
def Chip8.skip_if_not_equal (s : Chip8) (x y : Nat) : Chip8 :=
  if s.variable_register.getD x 0 = s.variable_register.getD y 0 then s
  else { s with program_counter := s.program_counter + 2 }

/-- Modelled from the spec: `Chip8::assign_value` (module file missing).
§4.3: register[x] = NN. -/
def Chip8.assign_value (s : Chip8) (x value : Nat) : Chip8 :=
  { s with variable_register := s.variable_register.set x value }

/-- Modelled from the spec: `Chip8::add_assign_value` (module file
missing).  §4.3: register[x] += NN with 8-bit wraparound, no flag set. -/
def Chip8.add_assign_value (s : Chip8) (x value : Nat) : Chip8 :=
  { s with variable_register :=
      s.variable_register.set x ((s.variable_register.getD x 0 + value) % 256) }

/-- Modelled from the spec: `Chip8::assign` (module file missing).  §4.3:
register[x] = register[y]. -/
def Chip8.assign (s : Chip8) (x y : Nat) : Chip8 :=
  { s with variable_register :=
      s.variable_register.set x (s.variable_register.getD y 0) }

/-- Modelled from the spec: `Chip8::bitwise_or` (module file missing). -/
def Chip8.bitwise_or (s : Chip8) (x y : Nat) : Chip8 :=
  { s with variable_register :=
      (s.variable_register.set x
        (Nat.lor (s.variable_register.getD x 0) (s.variable_register.getD y 0))) }

/-- Modelled from the spec: `Chip8::bitwise_and` (module file missing). -/
def Chip8.bitwise_and (s : Chip8) (x y : Nat) : Chip8 :=
  { s with variable_register :=
      (s.variable_register.set x
        (Nat.land (s.variable_register.getD x 0) (s.variable_register.getD y 0))) }

/-- Modelled from the spec: `Chip8::bitwise_xor` (module file missing). -/
def Chip8.bitwise_xor (s : Chip8) (x y : Nat) : Chip8 :=
  { s with variable_register :=
      (s.variable_register.set x
        (Nat.xor (s.variable_register.getD x 0) (s.variable_register.getD y 0))) }

/-- Modelled from the spec: `Chip8::add_assign` (module file missing).
§4.3: register[x] += register[y] with 8-bit truncation; register[15]
becomes 1 if the 8-bit sum overflowed, else 0 (the flag write is last, so
it wins when x = 15). -/
def Chip8.add_assign (s : Chip8) (x y : Nat) : Chip8 :=
  let sum := s.variable_register.getD x 0 + s.variable_register.getD y 0
  { s with variable_register :=
      (s.variable_register.set x (sum % 256)).set 15 (if 255 < sum then 1 else 0) }

/-- Modelled from the spec: `Chip8::sub_assign` (module file missing).
§4.3: register[x] -= register[y] with 8-bit wraparound; register[15]
becomes 1 if no borrow occurred (register[x] ≥ register[y]), else 0. -/
def Chip8.sub_assign (s : Chip8) (x y : Nat) : Chip8 :=
  let vx := s.variable_register.getD x 0
  let vy := s.variable_register.getD y 0
  { s with variable_register :=
      ((s.variable_register.set x ((vx + 256 - vy) % 256)).set 15
        (if vy ≤ vx then 1 else 0)) }

/-- Modelled from the spec: `Chip8::sub_assign_swapped` (module file
missing).  §4.3: register[x] = register[y] - register[x] with wraparound;
register[15] becomes 1 if no borrow occurred (register[y] ≥ register[x]). -/
def Chip8.sub_assign_swapped (s : Chip8) (x y : Nat) : Chip8 :=
  let vx := s.variable_register.getD x 0
  let vy := s.variable_register.getD y 0
  { s with variable_register :=
      ((s.variable_register.set x ((vy + 256 - vx) % 256)).set 15
        (if vx ≤ vy then 1 else 0)) }

/-- Modelled from the spec: `Chip8::right_shift_assign` (module file
missing).  §4.3: shifts register[x] right by one and sets register[15] to
the bit shifted out (the spec does not say whether the source operand is
register[x] or register[y]; register[x] is chosen here). -/
def Chip8.right_shift_assign (s : Chip8) (x y : Nat) : Chip8 :=
  let vx := s.variable_register.getD x 0
  { s with variable_register :=
      (s.variable_register.set x (vx / 2)).set 15 (vx % 2) }

/-- Modelled from the spec: `Chip8::left_shift_assign` (module file
missing).  §4.3: shifts register[x] left by one with 8-bit truncation and
sets register[15] to the bit shifted out. -/
def Chip8.left_shift_assign (s : Chip8) (x y : Nat) : Chip8 :=
  let vx := s.variable_register.getD x 0
  { s with variable_register :=
      (s.variable_register.set x (vx * 2 % 256)).set 15 (vx / 128 % 2) }

/-- Modelled from the spec: `Chip8::set_address_register` (module file
missing).  §4.3: address_register = NNN. -/
def Chip8.set_address_register (s : Chip8) (address : Nat) : Chip8 :=
  { s with address_register := address }

/-- Modelled from the spec: `Chip8::jump_offset` (module file missing).
§4.3: program counter = NNN + register[0]. -/
def Chip8.jump_offset (s : Chip8) (address : Nat) : Chip8 :=
  { s with program_counter := address + s.variable_register.getD 0 0 }

/-- Modelled from the spec: `Chip8::random_number_assign` (module file
missing).  §4.3: register[x] = (a uniformly random byte) AND NN.  The
random byte comes from an external source, so it is an explicit parameter
of the model. -/
def Chip8.random_number_assign (s : Chip8) (rnd x value : Nat) : Chip8 :=
  { s with variable_register := s.variable_register.set x (Nat.land (rnd % 256) value) }

/-- Modelled from the spec: one 8-pixel-wide sprite row XORed onto the
display (§4.3, draw sprite).  `row` is the display row, `col0` the starting
column; columns wrap at 64.  Returns the updated display and whether any
pixel transitioned from on to off (a collision). -/
def drawByteRow (disp : List (List Bool)) (row col0 byte : Nat) : List (List Bool) × Bool :=
  (List.range 8).foldl
    (fun acc j =>
      let bit := byte / 2 ^ (7 - j) % 2 = 1
      let col := (col0 + j) % 64
      let oldRow := acc.1.getD row (List.replicate 64 false)
      let oldPix := oldRow.getD col false
      (acc.1.set row (oldRow.set col (xor oldPix bit)), acc.2 || (oldPix && bit)))
    (disp, false)

/-- Modelled from the spec: `Chip8::draw_sprite` (module file missing).
§4.3: reads `height` consecutive bytes starting at the address register,
XORs each byte's bits onto the display starting at
(register[x] mod 64, register[y] mod 32) with wrapping, and sets
register[15] to 1 if any pixel went from on to off, else 0.  A sprite read
past the end of memory is an out-of-bounds access (§7). -/
def Chip8.draw_sprite (s : Chip8) (x y height : Nat) : Except Chip8Error Chip8 :=
  if 0 < height ∧ 4096 < s.address_register + height then
    Except.error Chip8Error.outOfBoundsAccess
  else
    let col0 := s.variable_register.getD x 0 % 64
    let row0 := s.variable_register.getD y 0 % 32
    let result := (List.range height).foldl
      (fun acc i =>
        let byte := s.memory.getD (s.address_register + i) 0
        let r := drawByteRow acc.1 ((row0 + i) % 32) col0 byte
        (r.1, acc.2 || r.2))
      (s.display, false)
    Except.ok { s with
      display := result.1
      variable_register := s.variable_register.set 15 (if result.2 then 1 else 0) }

/-- Modelled from the spec: the position of a key value on the 4x4 keypad
grid, following the layout drawn in the source comment on the `keypad`
field (`src/interpreter.rs` lines 36-47). -/
def keyPosition (key : Nat) : Nat × Nat :=
  match key with
  | 0x1 => (0, 0)
  | 0x2 => (0, 1)
  | 0x3 => (0, 2)
  | 0xC => (0, 3)
  | 0x4 => (1, 0)
  | 0x5 => (1, 1)
  | 0x6 => (1, 2)
  | 0xD => (1, 3)
  | 0x7 => (2, 0)
  | 0x8 => (2, 1)
  | 0x9 => (2, 2)
  | 0xE => (2, 3)
  | 0xA => (3, 0)
  | 0x0 => (3, 1)
  | 0xB => (3, 2)
  | _ => (3, 3)

/-- Modelled from the spec: whether the key with the given value is
pressed on the 4x4 keypad grid. -/
def Chip8.key_pressed (s : Chip8) (key : Nat) : Bool :=
  ((s.keypad.getD (keyPosition key).1 (List.replicate 4 false)).getD
    (keyPosition key).2 false)

/-- Modelled from the spec: `Chip8::skip_on_key_pressed` (module file
missing).  §4.3: tests the keypad state for the key index held in
register[x] (taken mod 16 to name a key); skips when pressed. -/
def Chip8.skip_on_key_pressed (s : Chip8) (x : Nat) : Chip8 :=
  if s.key_pressed (s.variable_register.getD x 0 % 16) then
    { s with program_counter := s.program_counter + 2 }
  else s

/-- Modelled from the spec: `Chip8::skip_on_key_not_pressed` (module file
missing).  §4.3: skips when the key indexed by register[x] is not
pressed. -/
def Chip8.skip_on_key_not_pressed (s : Chip8) (x : Nat) : Chip8 :=
  if s.key_pressed (s.variable_register.getD x 0 % 16) then s
  else { s with program_counter := s.program_counter + 2 }

/-- Modelled from the spec: `Chip8::store_delay_timer` (module file
missing).  §4.3: register[x] = delay_timer. -/
def Chip8.store_delay_timer (s : Chip8) (x : Nat) : Chip8 :=
  { s with variable_register := s.variable_register.set x s.delay_timer }

/-- Modelled from the spec: the lowest-valued pressed key, if any: scan
order over key values 0 to 15. -/
def Chip8.first_pressed_key (s : Chip8) : Option Nat :=
  (List.range 16).find? (fun k => s.key_pressed k)

/-- Modelled from the spec: `Chip8::wait_for_key_press` (module file
missing).  §4.3/§5: if some key is pressed, stores that key's value into
register[x]; otherwise performs no state change so the next step re-polls
(the program counter is left untouched either way; the engine in
`interpreter.rs` performs no default increment). -/
def Chip8.wait_for_key_press (s : Chip8) (x : Nat) : Chip8 :=
  match s.first_pressed_key with
  | some k => { s with variable_register := s.variable_register.set x k }
  | none => s

/-- Modelled from the spec: `Chip8::set_delay_timer` (module file
missing).  §4.3: delay_timer = register[x]. -/
def Chip8.set_delay_timer (s : Chip8) (x : Nat) : Chip8 :=
  { s with delay_timer := s.variable_register.getD x 0 }

/-- Modelled from the spec: `Chip8::set_sound_timer` (module file
missing).  §4.3: sound_timer = register[x]. -/
def Chip8.set_sound_timer (s : Chip8) (x : Nat) : Chip8 :=
  { s with sound_timer := s.variable_register.getD x 0 }

/-- Modelled from the spec: `Chip8::address_register_add_assign` (module
file missing).  §4.3: address_register += register[x], a 16-bit register,
truncated to 16 bits (the spec leaves the carry policy open and sets no
flag). -/
def Chip8.address_register_add_assign (s : Chip8) (x : Nat) : Chip8 :=
  { s with address_register := (s.address_register + s.variable_register.getD x 0) % 65536 }

/-- Modelled from the spec: the base address of the built-in font table
(§4.3); the sources give no concrete value, so 0 is used. -/
def FONT_TABLE_BASE : Nat := 0

/-- Modelled from the spec: the height in rows of one built-in hexadecimal
digit glyph (§4.3); the sources give no concrete value, so the
conventional 5 is used. -/
def FONT_GLYPH_HEIGHT : Nat := 5

/-- Modelled from the spec: `Chip8::set_address_register_to_character_address`
(module file missing).  §4.3: address_register = base font-table address +
register[x] * glyph height. -/
def Chip8.set_address_register_to_character_address (s : Chip8) (x : Nat) : Chip8 :=
  { s with address_register := FONT_TABLE_BASE + s.variable_register.getD x 0 * FONT_GLYPH_HEIGHT }

/-- Modelled from the spec:
`Chip8::store_binary_coded_decimal_at_address_register` (module file
missing).  §4.3: writes the hundreds, tens and units digits of register[x]
as three consecutive bytes at the address register; a write past the end of
memory is an out-of-bounds access (§7). -/
def Chip8.store_binary_coded_decimal_at_address_register (s : Chip8) (x : Nat) :
    Except Chip8Error Chip8 :=
  if 4096 ≤ s.address_register + 2 then Except.error Chip8Error.outOfBoundsAccess
  else
    let v := s.variable_register.getD x 0
    Except.ok { s with memory :=
      (((s.memory.set s.address_register (v / 100)).set
        (s.address_register + 1) (v / 10 % 10)).set
        (s.address_register + 2) (v % 10)) }

/-- Modelled from the spec: `Chip8::store_variable_registers` (module file
missing).  §4.3: copies registers[0..=x] to memory starting at the address
register; a write past the end of memory is an out-of-bounds access
(§7). -/
def Chip8.store_variable_registers (s : Chip8) (x : Nat) : Except Chip8Error Chip8 :=
  if 4096 ≤ s.address_register + x then Except.error Chip8Error.outOfBoundsAccess
  else Except.ok { s with memory :=
    ((List.range (x + 1)).foldl
      (fun m i => m.set (s.address_register + i) (s.variable_register.getD i 0))
      s.memory) }

/-- Modelled from the spec: `Chip8::load_variable_registers` (module file
missing).  §4.3: copies memory starting at the address register into
registers[0..=x]; a read past the end of memory is an out-of-bounds access
(§7). -/
def Chip8.load_variable_registers (s : Chip8) (x : Nat) : Except Chip8Error Chip8 :=
  if 4096 ≤ s.address_register + x then Except.error Chip8Error.outOfBoundsAccess
  else Except.ok { s with variable_register :=
    ((List.range (x + 1)).foldl
      (fun r i => r.set i (s.memory.getD (s.address_register + i) 0))
      s.variable_register) }

/-- Runs the handler the dispatcher selected, with the arguments recorded in
the `Handler` value.  The two no-op arms of the dispatch `match`
(`src/interpreter.rs` lines 99 and 134) leave the state untouched.  `rnd`
is the external random byte consumed by `random_number_assign`. -/
def applyHandler (rnd : Nat) (h : Handler) (s : Chip8) : Except Chip8Error Chip8 :=
  match h with
  | Handler.legacy_noop => Except.ok s
  | Handler.clear_screen => Except.ok s.clear_screen
  | Handler.return_subroutine => s.return_subroutine
  | Handler.jump a => Except.ok (s.jump a)
  | Handler.call_subroutine a => s.call_subroutine a
  | Handler.skip_if_equal_value x v => Except.ok (s.skip_if_equal_value x v)
  | Handler.skip_if_equal x y => Except.ok (s.skip_if_equal x y)
  | Handler.assign_value x v => Except.ok (s.assign_value x v)
  | Handler.add_assign_value x v => Except.ok (s.add_assign_value x v)
  | Handler.assign x y => Except.ok (s.assign x y)
  | Handler.bitwise_or x y => Except.ok (s.bitwise_or x y)
  | Handler.bitwise_and x y => Except.ok (s.bitwise_and x y)
  | Handler.bitwise_xor x y => Except.ok (s.bitwise_xor x y)
  | Handler.add_assign x y => Except.ok (s.add_assign x y)
  | Handler.sub_assign x y => Except.ok (s.sub_assign x y)
  | Handler.right_shift_assign x y => Except.ok (s.right_shift_assign x y)
  | Handler.sub_assign_swapped x y => Except.ok (s.sub_assign_swapped x y)
  | Handler.left_shift_assign x y => Except.ok (s.left_shift_assign x y)
  | Handler.skip_if_not_equal x y => Except.ok (s.skip_if_not_equal x y)
  | Handler.set_address_register a => Except.ok (s.set_address_register a)
  | Handler.jump_offset a => Except.ok (s.jump_offset a)
  | Handler.random_number_assign x v => Except.ok (s.random_number_assign rnd x v)
  | Handler.draw_sprite x y n => s.draw_sprite x y n
  | Handler.skip_on_key_pressed x => Except.ok (s.skip_on_key_pressed x)
  | Handler.skip_on_key_not_pressed x => Except.ok (s.skip_on_key_not_pressed x)
  | Handler.store_delay_timer x => Except.ok (s.store_delay_timer x)
  | Handler.wait_for_key_press x => Except.ok (s.wait_for_key_press x)
  | Handler.set_delay_timer x => Except.ok (s.set_delay_timer x)
  | Handler.set_sound_timer x => Except.ok (s.set_sound_timer x)
  | Handler.address_register_add_assign x => Except.ok (s.address_register_add_assign x)
  | Handler.set_address_register_to_character_address x =>
      Except.ok (s.set_address_register_to_character_address x)
  | Handler.store_binary_coded_decimal_at_address_register x =>
      s.store_binary_coded_decimal_at_address_register x
  | Handler.store_variable_registers x => s.store_variable_registers x
  | Handler.load_variable_registers x => s.load_variable_registers x
  | Handler.unknown_noop => Except.ok s

/-- How one invocation of `Chip8::execute_current_instruction`
(`src/interpreter.rs` lines 89-138) can end.  `indexOutOfBoundsPanic` is
the Rust panic raised by the unchecked memory indexing inside
`get_current_instruction`; `handlerFault` is an error condition raised by
the invoked handler (spec §7); `unimplementedPanic` is the panic raised by
the unconditional `unimplemented!()` on line 137, which runs after the
dispatch `match` completes, carrying the machine state at that moment.
There is no normal-return outcome in the source: the function body ends in
`unimplemented!()`. -/
inductive StepFault where
  | indexOutOfBoundsPanic
  | handlerFault (e : Chip8Error)
  | unimplementedPanic (s : Chip8)
deriving DecidableEq

/-- `Chip8::execute_current_instruction` (`src/interpreter.rs` lines
89-138): fetch and decode the four nibbles (line 90), derive the reusable
sub-values and select the handler (lines 92-135, embedded in
`selectedHandler` and `applyHandler`), then unconditionally hit
`unimplemented!()` (line 137).  A normal return `Except.ok` is never
produced. -/
def Chip8.execute_current_instruction (rnd : Nat) (s : Chip8) : Except StepFault Chip8 :=
  match s.get_current_instruction with
  | none => Except.error StepFault.indexOutOfBoundsPanic
  | some (n0, n1, n2, n3) =>
    match applyHandler rnd (selectedHandler n0 n1 n2 n3) s with
    | Except.error e => Except.error (StepFault.handlerFault e)
    | Except.ok s2 => Except.error (StepFault.unimplementedPanic s2)

/-- A machine whose register 0 holds 0x12, for exercising the value-compare
skips. -/
def c2_state : Chip8 :=
  { Chip8.new with variable_register := (List.replicate 16 0).set 0 0x12 }

/-- A machine about to execute opcode 0x5001 (nibbles 5,0,0,1), a
four-nibble combination not listed in the instruction table. -/
def c3_state : Chip8 :=
  { Chip8.new with memory := ((List.replicate 4096 0).set 200 0x50).set 201 0x01 }

/-- A machine about to execute opcode 0x6015 (assign the value 0x15 to
register 0), a handler that does not alter control flow. -/
def c7_state : Chip8 :=
  { Chip8.new with memory := ((List.replicate 4096 0).set 200 0x60).set 201 0x15 }

/-- Helper: any lookup in a constant list returns that constant when the
default is the same constant. -/
theorem replicate_getD_self {α : Type} (a : α) :
    ∀ (n i : Nat), (List.replicate n a).getD i a = a := by
  intro n
  induction n with
  | zero => intro i; cases i <;> rfl
  | succ k ih =>
    intro i
    cases i with
    | zero => rfl
    | succ j => exact ih j

/-- C1: in the source dispatch the wildcard arm `[0x0, _, _, _] => {}`
(line 99) precedes the exact arms for clear-screen (line 100) and
return-from-subroutine (line 101), and Rust matches arms first-to-last, so
the opcodes with nibbles (0,0,E,0) and (0,0,E,E) — and every other
0-family opcode — dispatch to the legacy no-op, not to the clear-screen or
return handlers.  The exact arms are unreachable. -/
theorem dispatch_clear_and_return_shadowed_by_legacy_noop :
    selectedHandler 0x0 0x0 0xE 0x0 = Handler.legacy_noop ∧
    selectedHandler 0x0 0x0 0xE 0xE = Handler.legacy_noop ∧
    Handler.legacy_noop ≠ Handler.clear_screen ∧
    Handler.legacy_noop ≠ Handler.return_subroutine ∧
    ∀ n1 n2 n3 : Nat, selectedHandler 0x0 n1 n2 n3 = Handler.legacy_noop :=
  ⟨by decide, by decide, by decide, by decide, fun _ _ _ => rfl⟩

/-- C2: the dispatcher sends the whole 0x4 opcode family to
`skip_if_equal_value` (source line 105), the very same handler as the 0x3
family (line 104), so a 0x4 opcode adds the extra two-byte skip exactly
when register[x] EQUALS NN — the opposite of the claimed
skip-if-not-equal semantics.  On a machine whose register 0 holds 0x12,
the handler dispatched for opcode 0x4012 advances the program counter by
the extra two bytes, while the spec's `skip_if_not_equal_value` (which the
dispatcher never calls) would leave it alone. -/
theorem family_four_dispatches_to_equal_value_skip :
    (∀ n1 n2 n3 : Nat, selectedHandler 0x4 n1 n2 n3 = selectedHandler 0x3 n1 n2 n3) ∧
    selectedHandler 0x4 0x0 0x1 0x2 = Handler.skip_if_equal_value 0x0 0x12 ∧
    Chip8.skip_if_equal_value c2_state 0x0 0x12 = { c2_state with program_counter := 202 } ∧
    Chip8.skip_if_not_equal_value c2_state 0x0 0x12 = c2_state :=
  ⟨fun _ _ _ => rfl, by decide, rfl, rfl⟩

/-- C3: executing the unrecognized opcode 0x5001 (nibbles 5,0,0,1, not in
the instruction table) dispatches to the final `_ => {}` arm, which leaves
the state untouched — but the step then hits the unconditional
`unimplemented!()` on line 137 and panics, and the default
program-counter increment never happens: the state carried at the panic
still has the pre-step program counter. -/
theorem unknown_opcode_step_panics_at_unimplemented :
    selectedHandler 0x5 0x0 0x0 0x1 = Handler.unknown_noop ∧
    Chip8.execute_current_instruction 0 c3_state =
      Except.error (StepFault.unimplementedPanic c3_state) :=
  ⟨by decide, rfl⟩

/-- C4: whenever the fetch succeeds and the dispatch `match` completes
without a handler fault, `execute_current_instruction` reaches the
unconditional `unimplemented!()` after the match and panics; and no
invocation of the step function ever returns normally. -/
theorem execute_never_returns_normally (rnd : Nat) (s : Chip8) :
    (∀ r : Chip8, Chip8.execute_current_instruction rnd s ≠ Except.ok r) ∧
    (∀ n0 n1 n2 n3 s2, s.get_current_instruction = some (n0, n1, n2, n3) →
      applyHandler rnd (selectedHandler n0 n1 n2 n3) s = Except.ok s2 →
      Chip8.execute_current_instruction rnd s =
        Except.error (StepFault.unimplementedPanic s2)) := by
  constructor
  · intro r h
    unfold Chip8.execute_current_instruction at h
    split at h
    · exact Except.noConfusion h
    · split at h
      · exact Except.noConfusion h
      · exact Except.noConfusion h
  · intro n0 n1 n2 n3 s2 hf ha
    simp only [Chip8.execute_current_instruction, hf, ha]

/-- C4 witness: on the freshly constructed machine the fetch yields nibbles
(0,0,0,0), the match completes with the state unchanged, and the step ends
in the `unimplemented!()` panic. -/
theorem execute_never_returns_normally_witness :
    Chip8.execute_current_instruction 0 Chip8.new =
      Except.error (StepFault.unimplementedPanic Chip8.new) :=
  (execute_never_returns_normally 0 Chip8.new).2 0 0 0 0 Chip8.new rfl rfl

/-- C5: with the program counter at 4095 (or 4096), the fetch indexes
memory at 4096 (or beyond), which in the source is an unchecked Rust array
index: it panics — embedded as `none` — instead of returning an
inspectable boundary-violation error value.  The source function's own doc
comment records the missing check as `TODO: Add bounds checking`. -/
theorem fetch_out_of_bounds_panics_without_error_value :
    Chip8.get_current_instruction { Chip8.new with program_counter := 4095 } = none ∧
    Chip8.get_current_instruction { Chip8.new with program_counter := 4096 } = none :=
  ⟨rfl, rfl⟩

/-- C6: on the happy path (the freshly constructed machine, whose first
opcode is 0x0000, a defined no-op) the step does not return normally: it
panics at the unconditional `unimplemented!()`.  The source function
returns unit and declares no error type, so stack-overflow,
stack-underflow and out-of-bounds conditions have no channel to reach the
caller as values. -/
theorem step_panics_on_happy_path_without_error_channel :
    Chip8.new.get_current_instruction = some (0, 0, 0, 0) ∧
    Chip8.execute_current_instruction 7 Chip8.new =
      Except.error (StepFault.unimplementedPanic Chip8.new) :=
  ⟨rfl, rfl⟩

/-- C7: executing opcode 0x6015 (assign-value, a handler that does not
alter control flow) mutates register 0 as expected, but the step then
panics at `unimplemented!()` and the program counter at that moment still
equals its pre-step value — the claimed default two-byte advance never
happens because no increment exists between the match and the panic. -/
theorem non_control_flow_step_never_advances_pc :
    Chip8.execute_current_instruction 0 c7_state =
      Except.error (StepFault.unimplementedPanic
        { c7_state with variable_register := (List.replicate 16 0).set 0 0x15 }) ∧
    ({ c7_state with variable_register := (List.replicate 16 0).set 0 0x15 } : Chip8).program_counter
      = c7_state.program_counter :=
  ⟨rfl, rfl⟩

/-- C8: the constructor zeroes every field — all 4096 memory bytes, the 16
variable registers, the address register, both timers, the call stack and
its index, every display pixel, every keypad key — except the program
counter, which starts at the fixed program-start offset. -/
theorem new_machine_all_zero_except_program_counter :
    (∀ i : Nat, Chip8.new.memory.getD i 0 = 0) ∧
    (∀ i : Nat, Chip8.new.variable_register.getD i 0 = 0) ∧
    Chip8.new.address_register = 0 ∧
    Chip8.new.delay_timer = 0 ∧
    Chip8.new.sound_timer = 0 ∧
    (∀ i : Nat, Chip8.new.call_stack.getD i 0 = 0) ∧
    Chip8.new.call_stack_index = 0 ∧
    (∀ r c : Nat, (Chip8.new.display.getD r (List.replicate 64 false)).getD c false = false) ∧
    (∀ r c : Nat, (Chip8.new.keypad.getD r (List.replicate 4 false)).getD c false = false) ∧
    Chip8.new.program_counter = Chip8.PROGRAM_MEMORY_OFFSET := by
  refine ⟨fun i => replicate_getD_self 0 4096 i,
          fun i => replicate_getD_self 0 16 i,
          rfl, rfl, rfl,
          fun i => replicate_getD_self 0 16 i,
          rfl, ?_, ?_, rfl⟩
  · intro r c
    show ((List.replicate 32 (List.replicate 64 false)).getD r
      (List.replicate 64 false)).getD c false = false
    rw [replicate_getD_self]
    exact replicate_getD_self false 64 c
  · intro r c
    show ((List.replicate 4 (List.replicate 4 false)).getD r
      (List.replicate 4 false)).getD c false = false
    rw [replicate_getD_self]
    exact replicate_getD_self false 4 c

/-- C9: for every reachable dispatch arm whose handler takes arguments
(the remaining arms, the two no-op arms and the two unreachable exact
0-family arms, pass none), the dispatcher passes the handler exactly the
sub-values derived on source lines 92-96: the address is the combination
of the last three nibbles, the immediate is the combination of the last
two nibbles, the x index is the second nibble, the y index is the third
nibble, and the height/count is the fourth nibble — and each handler
receives only the subset it needs, for all values of the wildcard
nibbles. -/
theorem dispatch_derives_and_passes_subvalues (n1 n2 n3 : Nat) :
    selectedHandler 0x1 n1 n2 n3 = Handler.jump (combine_three_nibbles n1 n2 n3) ∧
    selectedHandler 0x2 n1 n2 n3 = Handler.call_subroutine (combine_three_nibbles n1 n2 n3) ∧
    selectedHandler 0x3 n1 n2 n3 = Handler.skip_if_equal_value n1 (combine_two_nibbles n2 n3) ∧
    selectedHandler 0x4 n1 n2 n3 = Handler.skip_if_equal_value n1 (combine_two_nibbles n2 n3) ∧
    selectedHandler 0x5 n1 n2 0x0 = Handler.skip_if_equal n1 n2 ∧
    selectedHandler 0x6 n1 n2 n3 = Handler.assign_value n1 (combine_two_nibbles n2 n3) ∧
    selectedHandler 0x7 n1 n2 n3 = Handler.add_assign_value n1 (combine_two_nibbles n2 n3) ∧
    selectedHandler 0x8 n1 n2 0x0 = Handler.assign n1 n2 ∧
    selectedHandler 0x8 n1 n2 0x1 = Handler.bitwise_or n1 n2 ∧
    selectedHandler 0x8 n1 n2 0x2 = Handler.bitwise_and n1 n2 ∧
    selectedHandler 0x8 n1 n2 0x3 = Handler.bitwise_xor n1 n2 ∧
    selectedHandler 0x8 n1 n2 0x4 = Handler.add_assign n1 n2 ∧
    selectedHandler 0x8 n1 n2 0x5 = Handler.sub_assign n1 n2 ∧
    selectedHandler 0x8 n1 n2 0x6 = Handler.right_shift_assign n1 n2 ∧
    selectedHandler 0x8 n1 n2 0x7 = Handler.sub_assign_swapped n1 n2 ∧
    selectedHandler 0x8 n1 n2 0xE = Handler.left_shift_assign n1 n2 ∧
    selectedHandler 0x9 n1 n2 0x0 = Handler.skip_if_not_equal n1 n2 ∧
    selectedHandler 0xA n1 n2 n3 = Handler.set_address_register (combine_three_nibbles n1 n2 n3) ∧
    selectedHandler 0xB n1 n2 n3 = Handler.jump_offset (combine_three_nibbles n1 n2 n3) ∧
    selectedHandler 0xC n1 n2 n3 = Handler.random_number_assign n1 (combine_two_nibbles n2 n3) ∧
    selectedHandler 0xD n1 n2 n3 = Handler.draw_sprite n1 n2 n3 ∧
    selectedHandler 0xE n1 0x9 0xE = Handler.skip_on_key_pressed n1 ∧
    selectedHandler 0xE n1 0xA 0x1 = Handler.skip_on_key_not_pressed n1 ∧
    selectedHandler 0xF n1 0x0 0x7 = Handler.store_delay_timer n1 ∧
    selectedHandler 0xF n1 0x0 0xA = Handler.wait_for_key_press n1 ∧
    selectedHandler 0xF n1 0x1 0x5 = Handler.set_delay_timer n1 ∧
    selectedHandler 0xF n1 0x1 0x8 = Handler.set_sound_timer n1 ∧
    selectedHandler 0xF n1 0x1 0xE = Handler.address_register_add_assign n1 ∧
    selectedHandler 0xF n1 0x2 0x9 = Handler.set_address_register_to_character_address n1 ∧
    selectedHandler 0xF n1 0x3 0x3 = Handler.store_binary_coded_decimal_at_address_register n1 ∧
    selectedHandler 0xF n1 0x5 0x5 = Handler.store_variable_registers n1 ∧
    selectedHandler 0xF n1 0x6 0x5 = Handler.load_variable_registers n1 ∧
    combine_three_nibbles n1 n2 n3 = n1 * 256 + n2 * 16 + n3 ∧
    combine_two_nibbles n2 n3 = n2 * 16 + n3 :=
  ⟨rfl, rfl, rfl, rfl, rfl, rfl, rfl, rfl, rfl, rfl, rfl, rfl,
   rfl, rfl, rfl, rfl, rfl, rfl, rfl, rfl, rfl, rfl, rfl, rfl,
   rfl, rfl, rfl, rfl, rfl, rfl, rfl, rfl, rfl, rfl⟩

/-- C10: the fixed program-start offset is the decimal literal 200 — not
the conventional 0x200 = 512 — so a fresh machine's program counter is
200, and whatever memory the caller provides, the first fetch reads
exactly the bytes at offsets 200 and 201. -/
theorem program_memory_offset_is_200_decimal :
    Chip8.PROGRAM_MEMORY_OFFSET = 200 ∧
    Chip8.PROGRAM_MEMORY_OFFSET ≠ 0x200 ∧
    Chip8.new.program_counter = 200 ∧
    ∀ m : List Nat, Chip8.get_current_instruction { Chip8.new with memory := m } =
      some (get_first_nibble (m.getD 200 0), get_second_nibble (m.getD 200 0),
            get_first_nibble (m.getD 201 0), get_second_nibble (m.getD 201 0)) :=
  ⟨rfl, by decide, rfl, fun _ => rfl⟩
